import Mathlib

/-!
# Shopping cart system: a shallow embedding

This file embeds the inventory/cart core of the two Python source files
`Shoping_cart_System.py` (console shell) and `shoppingcart.py` (GUI shell)
and proves the specified properties about it.

Modelling conventions:
* Python `dict` (insertion ordered, unique keys) is an association list
  `List (String × α)` with `dlookup` / `dinsert` (update in place, else
  append) / `dremove`.
* A Python exception that escapes a method is `PyResult.exc`; the method
  also returns the state as mutated up to the raise point (in this code
  every raise happens before any mutation, which several theorems below
  make precise).
* A `CartItem` in Python holds a reference to the *same* `Product` object
  that the catalog holds, so mutating one mutates the other.  The ledger
  state therefore stores a cart line as `product_id ↦ reserved quantity`
  and reads the product through the catalog; the (unreachable) case of a
  cart line whose id is not a catalog key is mapped to a `KeyError`.
* Quantities are `Nat` in objects because every Python constructor clamps
  (`max(0, q)`) and every setter rejects negatives; quantities arriving
  from the outside (user input, file records) are `Int`.
* Prices are `ℚ` (decimal currency values; the ledger only copies,
  multiplies and sums them).
* File persistence is modelled by the serialized contents plus a counter
  `saves` of file-write calls (observable like a file modification time);
  the CSV transaction log is the list `log` (wall-clock timestamps are
  omitted).
-/

/-- One variant tag of the product class hierarchy
(`Product` / `PhysicalProduct` / `DigitalProduct`). -/
inductive Variant where
  | generic
  | physical (weight : ℚ)
  | digital (download_link : String)
  deriving DecidableEq, Repr

/-- A catalog product.  `quantity_available` is a `Nat` because the
constructor clamps negatives to 0 and the setter raises on negatives. -/
structure Product where
  product_id : String
  name : String
  price : ℚ
  quantity_available : Nat
  variant : Variant
  deriving DecidableEq, Repr

/-- `Product.__init__`: stores the fields, clamping the quantity with
`max(0, quantity_available)`. -/
def Product.init (product_id name : String) (price : ℚ)
    (quantity_available : Int) : Product :=
  ⟨product_id, name, price, (max 0 quantity_available).toNat, .generic⟩

/-- `PhysicalProduct.__init__`. -/
def PhysicalProduct.init (product_id name : String) (price : ℚ)
    (quantity_available : Int) (weight : ℚ) : Product :=
  { Product.init product_id name price quantity_available with
      variant := .physical weight }

/-- `DigitalProduct.__init__`. -/
def DigitalProduct.init (product_id name : String) (price : ℚ)
    (quantity_available : Int) (download_link : String) : Product :=
  { Product.init product_id name price quantity_available with
      variant := .digital download_link }

/-- The Python exceptions the embedded code can raise.  `inventoryError`
carries the data interpolated into the Python message
`"Insufficient stock for <name>. Available: <n>"`. -/
inductive PyError where
  | inventoryError (product_name : String) (available : Nat)
  | valueError (msg : String)
  | keyError
  | attributeError
  deriving DecidableEq, Repr

/-- Outcome of a Python method call: a returned value or an escaped
exception. -/
inductive PyResult (α : Type) where
  | ok (a : α)
  | exc (e : PyError)
  deriving DecidableEq, Repr

/-- `Product.decrease_quantity`: no-op returning `False` on a
non-positive amount or insufficient stock, else subtracts. -/
def Product.decrease_quantity (p : Product) (amount : Int) : Bool × Product :=
  if amount ≤ 0 then (false, p)
  else if (p.quantity_available : Int) < amount then (false, p)
  else (true, { p with quantity_available := p.quantity_available - amount.toNat })

/-- `Product.increase_quantity`: raises `ValueError` on a non-positive
amount, else adds unconditionally. -/
def Product.increase_quantity (p : Product) (amount : Int) :
    Except PyError Product :=
  if amount ≤ 0 then .error (.valueError "Amount must be positive")
  else .ok { p with quantity_available := p.quantity_available + amount.toNat }

/-- `CartItem`: a cart line object (product reference plus reserved
quantity). -/
structure CartItem where
  product : Product
  quantity : Nat
  deriving DecidableEq, Repr

/-- `CartItem.__init__`: clamps the quantity with `max(0, quantity)`. -/
def CartItem.init (product : Product) (quantity : Int) : CartItem :=
  ⟨product, (max 0 quantity).toNat⟩

/-- The `CartItem.quantity` property setter: raises `ValueError` on a
negative value. -/
def CartItem.setQuantity (value : Int) : Except PyError Nat :=
  if value < 0 then .error (.valueError "Quantity cannot be negative")
  else .ok value.toNat

/-- `CartItem.calculate_subtotal`. -/
def CartItem.calculate_subtotal (it : CartItem) : ℚ :=
  it.product.price * (it.quantity : ℚ)

/-! ## Python dictionaries as association lists -/

/-- Dictionary lookup (`d[k]` / `k in d`). -/
def dlookup {α : Type} : List (String × α) → String → Option α
  | [], _ => none
  | (k', v') :: rest, k => if k' = k then some v' else dlookup rest k

/-- Dictionary write `d[k] = v`: replaces in place if the key is present,
appends otherwise (Python dicts keep insertion order). -/
def dinsert {α : Type} : List (String × α) → String → α → List (String × α)
  | [], k, v => [(k, v)]
  | (k', v') :: rest, k, v =>
    if k' = k then (k, v) :: rest else (k', v') :: dinsert rest k v

/-- Dictionary deletion `del d[k]`: removes the first entry with the key. -/
def dremove {α : Type} : List (String × α) → String → List (String × α)
  | [], _ => []
  | (k', v') :: rest, k =>
    if k' = k then rest else (k', v') :: dremove rest k

/-! ## Serialized records -/

/-- A JSON product record as read from the catalog file: each field may be
missing (reading a missing field raises `KeyError`; `data.get` supplies a
default for `type`). -/
structure ProdRecord where
  type : Option String
  product_id : Option String
  name : Option String
  price : Option ℚ
  quantity_available : Option Int
  weight : Option ℚ
  download_link : Option String
  deriving DecidableEq, Repr

/-- `Product.to_dict` (including the subclass overrides, which add the
variant tag and payload field on top of the base dictionary). -/
def Product.to_dict (p : Product) : ProdRecord :=
  match p.variant with
  | .generic =>
    ⟨some "generic", some p.product_id, some p.name, some p.price,
      some (p.quantity_available : Int), none, none⟩
  | .physical w =>
    ⟨some "physical", some p.product_id, some p.name, some p.price,
      some (p.quantity_available : Int), some w, none⟩
  | .digital l =>
    ⟨some "digital", some p.product_id, some p.name, some p.price,
      some (p.quantity_available : Int), none, some l⟩

/-- `Product.from_dict`: dispatches on the `type` discriminator
(defaulting to `"generic"`); `none` models the `KeyError` raised when a
required field is missing. -/
def Product.from_dict (d : ProdRecord) : Option Product :=
  let ptype := d.type.getD "generic"
  if ptype = "physical" then
    match d.product_id, d.name, d.price, d.quantity_available, d.weight with
    | some i, some n, some pr, some q, some w =>
      some (PhysicalProduct.init i n pr q w)
    | _, _, _, _, _ => none
  else if ptype = "digital" then
    match d.product_id, d.name, d.price, d.quantity_available,
        d.download_link with
    | some i, some n, some pr, some q, some l =>
      some (DigitalProduct.init i n pr q l)
    | _, _, _, _, _ => none
  else
    match d.product_id, d.name, d.price, d.quantity_available with
    | some i, some n, some pr, some q => some (Product.init i n pr q)
    | _, _, _, _ => none

/-- A JSON cart-state record `{product_id, quantity}`. -/
structure CartRecord where
  product_id : String
  quantity : Int
  deriving DecidableEq, Repr

/-- One row of the CSV transaction log (the wall-clock timestamp column
is omitted from the model). -/
structure LogRecord where
  action : String
  product_id : String
  product_name : String
  quantity : Int
  details : String
  deriving DecidableEq, Repr

/-! ## The ledger state -/

/-- The full observable state of a `ShoppingCart` object together with its
backing files: the in-memory catalog and cart-line dictionaries, the two
JSON files' contents, the transaction log rows, and a count of file-save
calls performed. -/
structure SysState where
  catalog : List (String × Product)
  items : List (String × Nat)
  catalogFile : List ProdRecord
  cartFile : List CartRecord
  log : List LogRecord
  saves : Nat
  deriving DecidableEq, Repr

/-- The data `_save_catalog` writes to the catalog file. -/
def saveCatalogData (catalog : List (String × Product)) : List ProdRecord :=
  catalog.map (fun e => e.2.to_dict)

/-- The data `_save_cart_state` writes to the cart-state file
(`CartItem.to_dict` = product id and quantity; the dictionary key is the
stored product's id). -/
def saveCartData (items : List (String × Nat)) : List CartRecord :=
  items.map (fun e => ⟨e.1, (e.2 : Int)⟩)

/-- `ShoppingCart._save_catalog`. -/
def saveCatalog (s : SysState) : SysState :=
  { s with catalogFile := saveCatalogData s.catalog, saves := s.saves + 1 }

/-- `ShoppingCart._save_cart_state`. -/
def saveCartState (s : SysState) : SysState :=
  { s with cartFile := saveCartData s.items, saves := s.saves + 1 }

/-- `ShoppingCart._log_transaction`: appends one CSV row. -/
def logTransaction (s : SysState) (action product_id product_name : String)
    (quantity : Int) (details : String) : SysState :=
  { s with log := s.log ++ [⟨action, product_id, product_name, quantity, details⟩] }

/-! ## Catalog and cart loading -/

/-- `ShoppingCart._load_catalog` of `Shoping_cart_System.py`: builds the
catalog dictionary record by record; a record whose parse raises
`KeyError` is NOT caught per record (the method only catches
`FileNotFoundError` and `json.JSONDecodeError`), so the exception escapes
and the whole load fails. -/
def loadCatalogSys (acc : List (String × Product)) :
    List ProdRecord → Except PyError (List (String × Product))
  | [] => .ok acc
  | r :: rest =>
    match Product.from_dict r with
    | none => .error .keyError
    | some p => loadCatalogSys (dinsert acc p.product_id p) rest

/-- `ShoppingCart._load_catalog` of `shoppingcart.py`: the per-record
`try/except (KeyError, ValueError)` skips a bad record (printing an
error) and continues; also returns the number of skipped records. -/
def loadCatalogGui (acc : List (String × Product)) :
    List ProdRecord → List (String × Product) × Nat
  | [] => (acc, 0)
  | r :: rest =>
    match Product.from_dict r with
    | none =>
      let (cat, w) := loadCatalogGui acc rest
      (cat, w + 1)
    | some p => loadCatalogGui (dinsert acc p.product_id p) rest

/-- `ShoppingCart._load_cart_state`: pairs each `{product_id, quantity}`
record against the already loaded catalog, silently dropping ids absent
from it; a kept record becomes `CartItem(product, quantity)` (whose
constructor clamps negatives to 0). -/
def loadCartState (catalog : List (String × Product))
    (acc : List (String × Nat)) : List CartRecord → List (String × Nat)
  | [] => acc
  | r :: rest =>
    match dlookup catalog r.product_id with
    | some p =>
      loadCartState catalog
        (dinsert acc r.product_id (CartItem.init p r.quantity).quantity) rest
    | none => loadCartState catalog acc rest

/-! ## Ledger operations (`ShoppingCart` of `Shoping_cart_System.py`) -/

/-- `ShoppingCart.add_item` (console file): validation, inventory check,
stock decrease, cart-line create/extend, persistence, `"ADD"` log row. -/
def add_item (s : SysState) (product_id : String) (quantity : Int) :
    PyResult Bool × SysState :=
  match dlookup s.catalog product_id with
  | none => (.ok false, s)
  | some product =>
    if quantity ≤ 0 then (.ok false, s)
    else if (product.quantity_available : Int) < quantity then
      (.exc (.inventoryError product.name product.quantity_available), s)
    else
      -- `product.decrease_quantity(quantity)` (result ignored); the
      -- product object is shared with the catalog dictionary.
      let product' := (product.decrease_quantity quantity).2
      let catalog' := dinsert s.catalog product_id product'
      match dlookup s.items product_id with
      | some c =>
        -- `self._items[product_id].quantity += quantity` goes through
        -- the raising setter; unreachable error branch kept for fidelity.
        match CartItem.setQuantity ((c : Int) + quantity) with
        | .error e => (.exc e, { s with catalog := catalog' })
        | .ok q' =>
          let s₁ := saveCartState (saveCatalog
            { s with catalog := catalog', items := dinsert s.items product_id q' })
          (.ok true, logTransaction s₁ "ADD" product_id product.name quantity "")
      | none =>
        let line := (CartItem.init product' quantity).quantity
        let s₁ := saveCartState (saveCatalog
          { s with catalog := catalog', items := dinsert s.items product_id line })
        (.ok true, logTransaction s₁ "ADD" product_id product.name quantity "")

/-- `ShoppingCart.remove_item` (identical in both files): returns the
line's full reserved quantity to stock, deletes the line, persists,
logs a `"REMOVE"` row. -/
def remove_item (s : SysState) (product_id : String) :
    PyResult Bool × SysState :=
  match dlookup s.items product_id with
  | none => (.ok false, s)
  | some c =>
    -- `cart_item.product` aliases the catalog entry; a missing catalog
    -- key is unreachable for program-built states.
    match dlookup s.catalog product_id with
    | none => (.exc .keyError, s)
    | some product =>
      match product.increase_quantity (c : Int) with
      | .error e => (.exc e, s)
      | .ok product' =>
        let s₁ := saveCartState (saveCatalog
          { s with catalog := dinsert s.catalog product_id product',
                   items := dremove s.items product_id })
        (.ok true, logTransaction s₁ "REMOVE" product_id product.name (c : Int) "")

/-- `ShoppingCart.update_quantity` (console file only): no-op
short-circuit on equal quantity, signed stock adjustment by the
difference, line rewrite (delete on zero), persistence, `"UPDATE"` log
row carrying the previous quantity. -/
def update_quantity (s : SysState) (product_id : String) (new_quantity : Int) :
    PyResult Bool × SysState :=
  match dlookup s.items product_id with
  | none => (.ok false, s)
  | some current_quantity =>
    match dlookup s.catalog product_id with
    | none => (.exc .keyError, s)
    | some product =>
      if new_quantity < 0 then (.ok false, s)
      else if new_quantity = (current_quantity : Int) then (.ok true, s)
      else
        let diff : Int := new_quantity - (current_quantity : Int)
        let adjusted : Except PyError Product :=
          if 0 < diff then
            if (product.quantity_available : Int) < diff then
              .error (.inventoryError product.name product.quantity_available)
            else .ok (product.decrease_quantity diff).2
          else product.increase_quantity (-diff)
        match adjusted with
        | .error e => (.exc e, s)
        | .ok product' =>
          match CartItem.setQuantity new_quantity with
          | .error e => (.exc e, { s with catalog := dinsert s.catalog product_id product' })
          | .ok q' =>
            let items₁ := dinsert s.items product_id q'
            let items₂ := if new_quantity = 0 then dremove items₁ product_id else items₁
            let s₁ := saveCartState (saveCatalog
              { s with catalog := dinsert s.catalog product_id product', items := items₂ })
            (.ok true, logTransaction s₁ "UPDATE" product_id product.name new_quantity
              ("Previous quantity: " ++ toString current_quantity))

/-- `ShoppingCart.get_total`: sum of line subtotals (each line's product
aliases its catalog entry; the missing-key branch is unreachable). -/
def get_total (s : SysState) : ℚ :=
  (s.items.map (fun e =>
    match dlookup s.catalog e.1 with
    | some p => (CartItem.mk p e.2).calculate_subtotal
    | none => 0)).sum

/-- `ShoppingCart.get_product`. -/
def get_product (s : SysState) (product_id : String) : Option Product :=
  dlookup s.catalog product_id

/-! ## Ledger operations (`ShoppingCart` of `shoppingcart.py`) -/

/-- `ShoppingCart.add_item` (GUI file): same as the console file's except
that the result of `decrease_quantity` is checked (`if not ...: return
False`), a branch that the preceding checks make unreachable. -/
def add_item_gui (s : SysState) (product_id : String) (quantity : Int) :
    PyResult Bool × SysState :=
  match dlookup s.catalog product_id with
  | none => (.ok false, s)
  | some product =>
    if quantity ≤ 0 then (.ok false, s)
    else if (product.quantity_available : Int) < quantity then
      (.exc (.inventoryError product.name product.quantity_available), s)
    else
      match product.decrease_quantity quantity with
      | (false, _) => (.ok false, s)
      | (true, product') =>
        let catalog' := dinsert s.catalog product_id product'
        match dlookup s.items product_id with
        | some c =>
          match CartItem.setQuantity ((c : Int) + quantity) with
          | .error e => (.exc e, { s with catalog := catalog' })
          | .ok q' =>
            let s₁ := saveCartState (saveCatalog
              { s with catalog := catalog', items := dinsert s.items product_id q' })
            (.ok true, logTransaction s₁ "ADD" product_id product.name quantity "")
        | none =>
          let line := (CartItem.init product' quantity).quantity
          let s₁ := saveCartState (saveCatalog
            { s with catalog := catalog', items := dinsert s.items product_id line })
          (.ok true, logTransaction s₁ "ADD" product_id product.name quantity "")

/-- `ShoppingCart.remove_item` of `shoppingcart.py` (line-for-line the
same method body as the console file's, translated independently). -/
def remove_item_gui (s : SysState) (product_id : String) :
    PyResult Bool × SysState :=
  match dlookup s.items product_id with
  | none => (.ok false, s)
  | some c =>
    match dlookup s.catalog product_id with
    | none => (.exc .keyError, s)
    | some product =>
      match product.increase_quantity (c : Int) with
      | .error e => (.exc e, s)
      | .ok product' =>
        let s₁ := saveCartState (saveCatalog
          { s with catalog := dinsert s.catalog product_id product',
                   items := dremove s.items product_id })
        (.ok true, logTransaction s₁ "REMOVE" product_id product.name (c : Int) "")

/-- `ShoppingCart.get_total` of `shoppingcart.py` (same body as the
console file's, translated independently). -/
def get_total_gui (s : SysState) : ℚ :=
  (s.items.map (fun e =>
    match dlookup s.catalog e.1 with
    | some p => (CartItem.mk p e.2).calculate_subtotal
    | none => 0)).sum

/-! ## The collaborator-facing API and operation sequences -/

/-- One call of the collaborator-facing API. -/
inductive ApiOp where
  | addItem (product_id : String) (quantity : Int)
  | removeItem (product_id : String)
  | updateQuantity (product_id : String) (new_quantity : Int)
  | getTotal
  | getProduct (product_id : String)
  deriving DecidableEq, Repr

/-- A value returned by an API call. -/
inductive ApiOut where
  | flag (b : Bool)
  | total (t : ℚ)
  | product (p : Option Product)
  deriving DecidableEq, Repr

/-- Dispatching an API call on the `ShoppingCart` class of
`Shoping_cart_System.py`. -/
def apiSys (op : ApiOp) (s : SysState) : PyResult ApiOut × SysState :=
  match op with
  | .addItem pid q =>
    match add_item s pid q with
    | (.ok b, s') => (.ok (.flag b), s')
    | (.exc e, s') => (.exc e, s')
  | .removeItem pid =>
    match remove_item s pid with
    | (.ok b, s') => (.ok (.flag b), s')
    | (.exc e, s') => (.exc e, s')
  | .updateQuantity pid q =>
    match update_quantity s pid q with
    | (.ok b, s') => (.ok (.flag b), s')
    | (.exc e, s') => (.exc e, s')
  | .getTotal => (.ok (.total (get_total s)), s)
  | .getProduct pid => (.ok (.product (get_product s pid)), s)

/-- Dispatching an API call on the `ShoppingCart` class of
`shoppingcart.py`: that class defines no `update_quantity` and no
`get_product` method, so calling either raises `AttributeError`. -/
def apiGui (op : ApiOp) (s : SysState) : PyResult ApiOut × SysState :=
  match op with
  | .addItem pid q =>
    match add_item_gui s pid q with
    | (.ok b, s') => (.ok (.flag b), s')
    | (.exc e, s') => (.exc e, s')
  | .removeItem pid =>
    match remove_item_gui s pid with
    | (.ok b, s') => (.ok (.flag b), s')
    | (.exc e, s') => (.exc e, s')
  | .updateQuantity _ _ => (.exc .attributeError, s)
  | .getTotal => (.ok (.total (get_total_gui s)), s)
  | .getProduct _ => (.exc .attributeError, s)

/-- One mutating ledger operation, for reasoning about sequences. -/
inductive Op where
  | add (product_id : String) (quantity : Int)
  | remove (product_id : String)
  | update (product_id : String) (new_quantity : Int)
  deriving DecidableEq, Repr

/-- Running one mutating operation. -/
def applyOp (op : Op) (s : SysState) : PyResult Bool × SysState :=
  match op with
  | .add pid q => add_item s pid q
  | .remove pid => remove_item s pid
  | .update pid q => update_quantity s pid q

/-- Running a sequence of mutating operations, threading the state
(a caller that catches exceptions continues from the returned state). -/
def runOps (ops : List Op) (s : SysState) : SysState :=
  ops.foldl (fun st op => (applyOp op st).2) s

/-- Whether every operation of the sequence succeeds (returns `True`). -/
def opsSucceed : List Op → SysState → Bool
  | [], _ => true
  | op :: rest, s =>
    match applyOp op s with
    | (.ok true, s') => opsSucceed rest s'
    | _ => false

/-- A product's available catalog stock plus its reserved cart quantity
(zero when no cart line exists): the conserved sum. -/
def stockTotal (s : SysState) (product_id : String) : Int :=
  (dlookup s.catalog product_id).elim 0 (fun p => (p.quantity_available : Int))
    + (dlookup s.items product_id).elim 0 (fun c => (c : Int))

/-- A Python dictionary never holds a key twice; association lists that
represent one have pairwise distinct keys. -/
abbrev keysNodup {α : Type} (l : List (String × α)) : Prop :=
  (l.map Prod.fst).Nodup

/-- Every cart line's reserved quantity is strictly positive. -/
abbrev itemsPos (items : List (String × Nat)) : Prop :=
  ∀ e ∈ items, 0 < e.2

/-! ## Concrete states for witnesses and counterexamples -/

/-- The first product of `initialize_sample_catalog`:
`PhysicalProduct("001A", "Tata Salt 1kg", 28.0, 100, 1.0)`. -/
def tataSalt : Product :=
  PhysicalProduct.init "001A" "Tata Salt 1kg" 28 100 1

/-- The second sample product:
`PhysicalProduct("002A", "Amul Butter 100g", 50.0, 50, 0.1)`. -/
def amulButter : Product :=
  PhysicalProduct.init "002A" "Amul Butter 100g" 50 50 (mkRat 1 10)

/-- A freshly seeded state: two catalog products, empty cart, no files
written yet. -/
def demoState : SysState :=
  ⟨[("001A", tataSalt), ("002A", amulButter)], [], [], [], [], 0⟩

/-- A state with a cart line of five units of `"001A"` reserved
(catalog stock already decreased accordingly). -/
def demoCartState : SysState :=
  ⟨[("001A", { tataSalt with quantity_available := 95 }),
    ("002A", amulButter)], [("001A", 5)], [], [], [], 0⟩

/-- A state whose cart was loaded from a cart-state file holding the
pair `{"product_id": "001A", "quantity": 0}`: the zero survives into the
in-memory cart line. -/
def zeroLineState : SysState :=
  ⟨[("001A", tataSalt), ("002A", amulButter)],
    loadCartState [("001A", tataSalt), ("002A", amulButter)] [] [⟨"001A", 0⟩],
    [], [], [], 0⟩

/-- A malformed catalog-file record: the required `name` field is
missing, so `Product.from_dict` raises `KeyError`. -/
def badRecord : ProdRecord :=
  ⟨some "generic", some "010A", none, some 5, some 3, none, none⟩

/-- A well-formed catalog-file record (the serialized form of
`tataSalt`). -/
def goodRecord : ProdRecord := tataSalt.to_dict

/-! ## Dictionary lemmas -/

theorem dlookup_dinsert_self {α : Type} (l : List (String × α)) (k : String)
    (v : α) : dlookup (dinsert l k v) k = some v := by
  induction l with
  | nil => simp [dlookup, dinsert]
  | cons e rest ih =>
    obtain ⟨k', v'⟩ := e
    by_cases h : k' = k
    · simp [dinsert, h, dlookup]
    · simp [dinsert, h, dlookup, ih]

theorem dlookup_dinsert_ne {α : Type} (l : List (String × α)) (k k' : String)
    (v : α) (h : k' ≠ k) : dlookup (dinsert l k v) k' = dlookup l k' := by
  induction l with
  | nil => simp [dlookup, dinsert, h.symm]
  | cons e rest ih =>
    obtain ⟨k₀, v₀⟩ := e
    by_cases h₀ : k₀ = k
    · subst h₀
      simp [dinsert, dlookup, h.symm]
    · simp only [dinsert, if_neg h₀, dlookup]
      by_cases h₁ : k₀ = k'
      · simp [h₁]
      · simp [h₁, ih]

theorem dlookup_dremove_ne {α : Type} (l : List (String × α)) (k k' : String)
    (h : k' ≠ k) : dlookup (dremove l k) k' = dlookup l k' := by
  induction l with
  | nil => simp [dremove]
  | cons e rest ih =>
    obtain ⟨k₀, v₀⟩ := e
    by_cases h₀ : k₀ = k
    · subst h₀
      simp [dremove, dlookup, h.symm]
    · simp only [dremove, if_neg h₀, dlookup]
      by_cases h₁ : k₀ = k'
      · simp [h₁]
      · simp [h₁, ih]

theorem dlookup_eq_none_of_not_mem_keys {α : Type} (l : List (String × α))
    (k : String) (h : k ∉ l.map Prod.fst) : dlookup l k = none := by
  induction l with
  | nil => rfl
  | cons e rest ih =>
    obtain ⟨k₀, v₀⟩ := e
    simp only [List.map_cons, List.mem_cons, not_or] at h
    have hk : ¬k₀ = k := fun h' => h.1 h'.symm
    simp [dlookup, hk, ih h.2]

theorem dlookup_dremove_self {α : Type} (l : List (String × α)) (k : String)
    (h : keysNodup l) : dlookup (dremove l k) k = none := by
  induction l with
  | nil => rfl
  | cons e rest ih =>
    obtain ⟨k₀, v₀⟩ := e
    simp only [keysNodup, List.map_cons, List.nodup_cons] at h
    by_cases h₀ : k₀ = k
    · subst h₀
      simpa [dremove] using dlookup_eq_none_of_not_mem_keys rest k₀ h.1
    · simp [dremove, h₀, dlookup, ih h.2]

theorem keys_dinsert {α : Type} (l : List (String × α)) (k : String) (v : α)
    (k' : String) : k' ∈ (dinsert l k v).map Prod.fst ↔
      k' = k ∨ k' ∈ l.map Prod.fst := by
  induction l with
  | nil => simp [dinsert]
  | cons e rest ih =>
    obtain ⟨k₀, v₀⟩ := e
    by_cases h₀ : k₀ = k
    · subst h₀
      simp [dinsert]
    · simp only [dinsert, if_neg h₀, List.map_cons, List.mem_cons, ih]
      tauto

theorem keysNodup_dinsert {α : Type} (l : List (String × α)) (k : String)
    (v : α) (h : keysNodup l) : keysNodup (dinsert l k v) := by
  induction l with
  | nil => simp [dinsert, keysNodup]
  | cons e rest ih =>
    obtain ⟨k₀, v₀⟩ := e
    simp only [keysNodup, List.map_cons, List.nodup_cons] at h
    by_cases h₀ : k₀ = k
    · subst h₀
      simpa [dinsert, keysNodup] using h
    · have := ih h.2
      simp only [dinsert, if_neg h₀, keysNodup, List.map_cons,
        List.nodup_cons]
      refine ⟨fun hmem => ?_, this⟩
      rcases (keys_dinsert rest k v k₀).mp hmem with h' | h'
      · exact h₀ h'
      · exact h.1 h'

theorem mem_dremove {α : Type} (l : List (String × α)) (k : String)
    (x : String × α) (h : x ∈ dremove l k) : x ∈ l := by
  induction l with
  | nil => simp [dremove] at h
  | cons e rest ih =>
    obtain ⟨k₀, v₀⟩ := e
    by_cases h₀ : k₀ = k
    · subst h₀
      simp only [dremove, if_pos rfl] at h
      exact List.mem_cons_of_mem _ h
    · simp only [dremove, if_neg h₀, List.mem_cons] at h
      rcases h with h | h
      · exact h ▸ List.mem_cons_self _ _
      · exact List.mem_cons_of_mem _ (ih h)

theorem mem_dinsert {α : Type} (l : List (String × α)) (k : String) (v : α)
    (x : String × α) (h : x ∈ dinsert l k v) : x = (k, v) ∨ x ∈ l := by
  induction l with
  | nil => simpa [dinsert] using h
  | cons e rest ih =>
    obtain ⟨k₀, v₀⟩ := e
    by_cases h₀ : k₀ = k
    · subst h₀
      simp only [dinsert, if_true, eq_self_iff_true, List.mem_cons] at h
      rcases h with h | h
      · exact Or.inl h
      · exact Or.inr (List.mem_cons_of_mem _ h)
    · simp only [dinsert, if_neg h₀, List.mem_cons] at h
      rcases h with h | h
      · exact Or.inr (h ▸ List.mem_cons_self _ _)
      · rcases ih h with h' | h'
        · exact Or.inl h'
        · exact Or.inr (List.mem_cons_of_mem _ h')

theorem keysNodup_dremove {α : Type} (l : List (String × α)) (k : String)
    (h : keysNodup l) : keysNodup (dremove l k) := by
  induction l with
  | nil => exact h
  | cons e rest ih =>
    obtain ⟨k₀, v₀⟩ := e
    simp only [keysNodup, List.map_cons, List.nodup_cons] at h
    by_cases h₀ : k₀ = k
    · subst h₀
      simpa [dremove, keysNodup] using h.2
    · simp only [dremove, if_neg h₀, keysNodup, List.map_cons,
        List.nodup_cons]
      refine ⟨fun hmem => ?_, ih h.2⟩
      simp only [List.mem_map] at hmem
      obtain ⟨x, hx, hxk⟩ := hmem
      exact h.1 (hxk ▸ List.mem_map_of_mem Prod.fst (mem_dremove rest k x hx))

theorem dinsert_eq_append {α : Type} (l : List (String × α)) (k : String)
    (v : α) (h : k ∉ l.map Prod.fst) : dinsert l k v = l ++ [(k, v)] := by
  induction l with
  | nil => rfl
  | cons e rest ih =>
    obtain ⟨k₀, v₀⟩ := e
    simp only [List.map_cons, List.mem_cons, not_or] at h
    have hk : ¬k₀ = k := fun h' => h.1 h'.symm
    simp [dinsert, hk, ih h.2]


/-! ## Branch characterizations of the ledger operations -/

theorem add_item_unknown (s : SysState) (pid : String) (q : Int)
    (hcat : dlookup s.catalog pid = none) :
    add_item s pid q = (.ok false, s) := by
  simp [add_item, hcat]

theorem add_item_nonpos (s : SysState) (pid : String) (q : Int) (p : Product)
    (hcat : dlookup s.catalog pid = some p) (hq : q ≤ 0) :
    add_item s pid q = (.ok false, s) := by
  simp [add_item, hcat, if_pos hq]

theorem add_item_shortfall (s : SysState) (pid : String) (q : Int)
    (p : Product) (hcat : dlookup s.catalog pid = some p)
    (hav : (p.quantity_available : Int) < q) :
    add_item s pid q =
      (.exc (.inventoryError p.name p.quantity_available), s) := by
  have hq : ¬q ≤ 0 := by omega
  simp [add_item, hcat, if_neg hq, if_pos hav]

theorem add_item_success_new (s : SysState) (pid : String) (q : Int)
    (p : Product) (hcat : dlookup s.catalog pid = some p) (hq : 0 < q)
    (hav : q ≤ (p.quantity_available : Int))
    (hit : dlookup s.items pid = none) :
    add_item s pid q = (.ok true,
      logTransaction (saveCartState (saveCatalog
        { s with
            catalog := dinsert s.catalog pid
              { p with quantity_available := p.quantity_available - q.toNat },
            items := dinsert s.items pid q.toNat }))
        "ADD" pid p.name q "") := by
  have hq' : ¬q ≤ 0 := by omega
  have hav' : ¬(p.quantity_available : Int) < q := by omega
  have hmax : max 0 q = q := max_eq_right hq.le
  simp [add_item, hcat, hit, if_neg hq', if_neg hav',
    Product.decrease_quantity, CartItem.init, hmax]

theorem add_item_success_existing (s : SysState) (pid : String) (q : Int)
    (p : Product) (c : Nat) (hcat : dlookup s.catalog pid = some p)
    (hq : 0 < q) (hav : q ≤ (p.quantity_available : Int))
    (hit : dlookup s.items pid = some c) :
    add_item s pid q = (.ok true,
      logTransaction (saveCartState (saveCatalog
        { s with
            catalog := dinsert s.catalog pid
              { p with quantity_available := p.quantity_available - q.toNat },
            items := dinsert s.items pid ((c : Int) + q).toNat }))
        "ADD" pid p.name q "") := by
  have hq' : ¬q ≤ 0 := by omega
  have hav' : ¬(p.quantity_available : Int) < q := by omega
  have hset : CartItem.setQuantity ((c : Int) + q) =
      .ok ((c : Int) + q).toNat := by
    simp only [CartItem.setQuantity, if_neg (by omega : ¬(c : Int) + q < 0)]
  simp [add_item, hcat, hit, if_neg hq', if_neg hav', hset,
    Product.decrease_quantity]

theorem remove_item_no_line (s : SysState) (pid : String)
    (hit : dlookup s.items pid = none) :
    remove_item s pid = (.ok false, s) := by
  simp [remove_item, hit]

theorem remove_item_zero_line (s : SysState) (pid : String) (p : Product)
    (hit : dlookup s.items pid = some 0)
    (hcat : dlookup s.catalog pid = some p) :
    remove_item s pid = (.exc (.valueError "Amount must be positive"), s) := by
  simp [remove_item, hit, hcat, Product.increase_quantity]

theorem remove_item_success (s : SysState) (pid : String) (p : Product)
    (c : Nat) (hit : dlookup s.items pid = some c) (hc : 0 < c)
    (hcat : dlookup s.catalog pid = some p) :
    remove_item s pid = (.ok true,
      logTransaction (saveCartState (saveCatalog
        { s with
            catalog := dinsert s.catalog pid
              { p with quantity_available := p.quantity_available + c },
            items := dremove s.items pid }))
        "REMOVE" pid p.name (c : Int) "") := by
  have hinc : p.increase_quantity (c : Int) =
      .ok { p with quantity_available := p.quantity_available + c } := by
    simp only [Product.increase_quantity, if_neg (by omega : ¬(c : Int) ≤ 0)]
    norm_num
  simp [remove_item, hit, hcat, hinc]

theorem update_quantity_no_line (s : SysState) (pid : String) (q : Int)
    (hit : dlookup s.items pid = none) :
    update_quantity s pid q = (.ok false, s) := by
  simp [update_quantity, hit]

theorem update_quantity_neg (s : SysState) (pid : String) (q : Int)
    (c : Nat) (p : Product) (hit : dlookup s.items pid = some c)
    (hcat : dlookup s.catalog pid = some p) (hq : q < 0) :
    update_quantity s pid q = (.ok false, s) := by
  simp [update_quantity, hit, hcat, if_pos hq]

theorem update_quantity_noop (s : SysState) (pid : String) (c : Nat)
    (p : Product) (hit : dlookup s.items pid = some c)
    (hcat : dlookup s.catalog pid = some p) :
    update_quantity s pid (c : Int) = (.ok true, s) := by
  simp [update_quantity, hit, hcat, if_neg (by omega : ¬(c : Int) < 0)]

theorem update_quantity_shortfall (s : SysState) (pid : String) (q : Int)
    (c : Nat) (p : Product) (hit : dlookup s.items pid = some c)
    (hcat : dlookup s.catalog pid = some p)
    (hav : (p.quantity_available : Int) < q - (c : Int)) :
    update_quantity s pid q =
      (.exc (.inventoryError p.name p.quantity_available), s) := by
  have hq : ¬q < 0 := by omega
  have hne : ¬q = (c : Int) := by omega
  have hcq : (c : Int) < q := by omega
  simp [update_quantity, hit, hcat, if_neg hq, if_neg hne, if_pos hcq,
    if_pos hav]

theorem update_quantity_success (s : SysState) (pid : String) (q : Int)
    (c : Nat) (p : Product) (hit : dlookup s.items pid = some c)
    (hcat : dlookup s.catalog pid = some p) (h0 : 0 ≤ q)
    (hne : q ≠ (c : Int)) (hav : q - (c : Int) ≤ (p.quantity_available : Int)) :
    update_quantity s pid q = (.ok true,
      logTransaction (saveCartState (saveCatalog
        { s with
            catalog := dinsert s.catalog pid
              { p with quantity_available :=
                  ((p.quantity_available : Int) + (c : Int) - q).toNat },
            items :=
              if q = 0 then dremove (dinsert s.items pid q.toNat) pid
              else dinsert s.items pid q.toNat }))
        "UPDATE" pid p.name q ("Previous quantity: " ++ toString c)) := by
  have hq : ¬q < 0 := by omega
  have hset : CartItem.setQuantity q = .ok q.toNat := by
    simp only [CartItem.setQuantity, if_neg hq]
  rcases lt_trichotomy (q - (c : Int)) 0 with hd | hd | hd
  · -- decreasing: `increase_quantity (-(q - c))` adds `c - q`
    have hdiff : ¬(c : Int) < q := by omega
    have hinc : p.increase_quantity ((c : Int) - q) =
        .ok { p with quantity_available :=
          ((p.quantity_available : Int) + (c : Int) - q).toNat } := by
      simp only [Product.increase_quantity, if_neg (by omega : ¬(c : Int) - q ≤ 0)]
      have hqa : p.quantity_available + ((c : Int) - q).toNat =
          ((p.quantity_available : Int) + (c : Int) - q).toNat := by omega
      rw [hqa]
    simp [update_quantity, hit, hcat, if_neg hq, if_neg hne, if_neg hdiff,
      hinc, hset]
  · omega
  · -- increasing: `decrease_quantity (q - c)` subtracts `q - c`
    have hdiff : (c : Int) < q := by omega
    have hav' : ¬(p.quantity_available : Int) < q - (c : Int) := by omega
    have hdec : (p.decrease_quantity (q - (c : Int))).2 =
        { p with quantity_available :=
          ((p.quantity_available : Int) + (c : Int) - q).toNat } := by
      simp only [Product.decrease_quantity, if_neg (by omega : ¬q - (c : Int) ≤ 0),
        if_neg hav']
      have hqa : p.quantity_available - (q - (c : Int)).toNat =
          ((p.quantity_available : Int) + (c : Int) - q).toNat := by omega
      rw [hqa]
    simp [update_quantity, hit, hcat, if_neg hq, if_neg hne, if_pos hdiff,
      if_neg hav', hdec, hset]

theorem remove_item_no_catalog (s : SysState) (pid : String) (c : Nat)
    (hit : dlookup s.items pid = some c)
    (hcat : dlookup s.catalog pid = none) :
    remove_item s pid = (.exc .keyError, s) := by
  simp [remove_item, hit, hcat]

theorem update_quantity_no_catalog (s : SysState) (pid : String) (q : Int)
    (c : Nat) (hit : dlookup s.items pid = some c)
    (hcat : dlookup s.catalog pid = none) :
    update_quantity s pid q = (.exc .keyError, s) := by
  simp [update_quantity, hit, hcat]

/-! ## Conservation of `stockTotal` -/

theorem stockTotal_wrap (s : SysState) (a b c : String) (q : Int)
    (d : String) (x : String) :
    stockTotal (logTransaction (saveCartState (saveCatalog s)) a b c q d) x =
      stockTotal s x := by
  simp [stockTotal, logTransaction, saveCartState, saveCatalog]

theorem stockTotal_add_item (s : SysState) (pid : String) (q : Int)
    (x : String) : stockTotal (add_item s pid q).2 x = stockTotal s x := by
  rcases hcat : dlookup s.catalog pid with _ | p
  · rw [add_item_unknown s pid q hcat]
  · by_cases hq : q ≤ 0
    · rw [add_item_nonpos s pid q p hcat hq]
    · by_cases hav : (p.quantity_available : Int) < q
      · rw [add_item_shortfall s pid q p hcat hav]
      · rcases hit : dlookup s.items pid with _ | c
        · rw [add_item_success_new s pid q p hcat (by omega) (by omega) hit]
          rw [stockTotal_wrap]
          simp only [stockTotal]
          by_cases hx : x = pid
          · subst hx
            rw [dlookup_dinsert_self, dlookup_dinsert_self, hcat, hit]
            simp only [Option.elim_some, Option.elim_none]
            omega
          · rw [dlookup_dinsert_ne _ _ _ _ hx, dlookup_dinsert_ne _ _ _ _ hx]
        · rw [add_item_success_existing s pid q p c hcat (by omega) (by omega)
            hit]
          rw [stockTotal_wrap]
          simp only [stockTotal]
          by_cases hx : x = pid
          · subst hx
            rw [dlookup_dinsert_self, dlookup_dinsert_self, hcat, hit]
            simp only [Option.elim_some]
            omega
          · rw [dlookup_dinsert_ne _ _ _ _ hx, dlookup_dinsert_ne _ _ _ _ hx]

theorem stockTotal_remove_item (s : SysState) (pid : String) (x : String)
    (hnd : keysNodup s.items) :
    stockTotal (remove_item s pid).2 x = stockTotal s x := by
  rcases hit : dlookup s.items pid with _ | c
  · rw [remove_item_no_line s pid hit]
  · rcases hcat : dlookup s.catalog pid with _ | p
    · rw [remove_item_no_catalog s pid c hit hcat]
    · rcases Nat.eq_zero_or_pos c with hc | hc
      · subst hc
        rw [remove_item_zero_line s pid p hit hcat]
      · rw [remove_item_success s pid p c hit hc hcat]
        rw [stockTotal_wrap]
        simp only [stockTotal]
        by_cases hx : x = pid
        · subst hx
          rw [dlookup_dinsert_self, dlookup_dremove_self _ _ hnd, hcat, hit]
          simp only [Option.elim_some, Option.elim_none]
          omega
        · rw [dlookup_dinsert_ne _ _ _ _ hx, dlookup_dremove_ne _ _ _ hx]

theorem stockTotal_update_quantity (s : SysState) (pid : String) (q : Int)
    (x : String) (hnd : keysNodup s.items) :
    stockTotal (update_quantity s pid q).2 x = stockTotal s x := by
  rcases hit : dlookup s.items pid with _ | c
  · rw [update_quantity_no_line s pid q hit]
  · rcases hcat : dlookup s.catalog pid with _ | p
    · rw [update_quantity_no_catalog s pid q c hit hcat]
    · by_cases hq : q < 0
      · rw [update_quantity_neg s pid q c p hit hcat hq]
      · by_cases hne : q = (c : Int)
        · rw [hne, update_quantity_noop s pid c p hit hcat]
        · by_cases hav : (p.quantity_available : Int) < q - (c : Int)
          · rw [update_quantity_shortfall s pid q c p hit hcat hav]
          · rw [update_quantity_success s pid q c p hit hcat (by omega) hne
              (by omega)]
            rw [stockTotal_wrap]
            simp only [stockTotal]
            by_cases hz : q = 0
            · rw [if_pos hz]
              by_cases hx : x = pid
              · subst hx
                rw [dlookup_dinsert_self,
                  dlookup_dremove_self _ _ (keysNodup_dinsert _ _ _ hnd),
                  hcat, hit]
                simp only [Option.elim_some, Option.elim_none]
                omega
              · rw [dlookup_dinsert_ne _ _ _ _ hx,
                  dlookup_dremove_ne _ _ _ hx, dlookup_dinsert_ne _ _ _ _ hx]
            · rw [if_neg hz]
              by_cases hx : x = pid
              · subst hx
                rw [dlookup_dinsert_self, dlookup_dinsert_self, hcat, hit]
                simp only [Option.elim_some]
                omega
              · rw [dlookup_dinsert_ne _ _ _ _ hx, dlookup_dinsert_ne _ _ _ _ hx]

theorem keysNodup_items_add_item (s : SysState) (pid : String) (q : Int)
    (hnd : keysNodup s.items) : keysNodup ((add_item s pid q).2).items := by
  rcases hcat : dlookup s.catalog pid with _ | p
  · rw [add_item_unknown s pid q hcat]; exact hnd
  · by_cases hq : q ≤ 0
    · rw [add_item_nonpos s pid q p hcat hq]; exact hnd
    · by_cases hav : (p.quantity_available : Int) < q
      · rw [add_item_shortfall s pid q p hcat hav]; exact hnd
      · rcases hit : dlookup s.items pid with _ | c
        · rw [add_item_success_new s pid q p hcat (by omega) (by omega) hit]
          simpa [logTransaction, saveCartState, saveCatalog] using
            keysNodup_dinsert _ _ _ hnd
        · rw [add_item_success_existing s pid q p c hcat (by omega) (by omega)
            hit]
          simpa [logTransaction, saveCartState, saveCatalog] using
            keysNodup_dinsert _ _ _ hnd

theorem keysNodup_items_remove_item (s : SysState) (pid : String)
    (hnd : keysNodup s.items) : keysNodup ((remove_item s pid).2).items := by
  rcases hit : dlookup s.items pid with _ | c
  · rw [remove_item_no_line s pid hit]; exact hnd
  · rcases hcat : dlookup s.catalog pid with _ | p
    · rw [remove_item_no_catalog s pid c hit hcat]; exact hnd
    · rcases Nat.eq_zero_or_pos c with hc | hc
      · subst hc
        rw [remove_item_zero_line s pid p hit hcat]; exact hnd
      · rw [remove_item_success s pid p c hit hc hcat]
        simpa [logTransaction, saveCartState, saveCatalog] using
          keysNodup_dremove _ _ hnd

theorem keysNodup_items_update_quantity (s : SysState) (pid : String)
    (q : Int) (hnd : keysNodup s.items) :
    keysNodup ((update_quantity s pid q).2).items := by
  rcases hit : dlookup s.items pid with _ | c
  · rw [update_quantity_no_line s pid q hit]; exact hnd
  · rcases hcat : dlookup s.catalog pid with _ | p
    · rw [update_quantity_no_catalog s pid q c hit hcat]; exact hnd
    · by_cases hq : q < 0
      · rw [update_quantity_neg s pid q c p hit hcat hq]; exact hnd
      · by_cases hne : q = (c : Int)
        · rw [hne, update_quantity_noop s pid c p hit hcat]; exact hnd
        · by_cases hav : (p.quantity_available : Int) < q - (c : Int)
          · rw [update_quantity_shortfall s pid q c p hit hcat hav]; exact hnd
          · rw [update_quantity_success s pid q c p hit hcat (by omega) hne
              (by omega)]
            by_cases hz : q = 0
            · rw [if_pos hz]
              simpa [logTransaction, saveCartState, saveCatalog] using
                keysNodup_dremove _ _ (keysNodup_dinsert _ _ _ hnd)
            · rw [if_neg hz]
              simpa [logTransaction, saveCartState, saveCatalog] using
                keysNodup_dinsert _ _ _ hnd

theorem stockTotal_applyOp (op : Op) (s : SysState) (x : String)
    (hnd : keysNodup s.items) :
    stockTotal (applyOp op s).2 x = stockTotal s x := by
  cases op with
  | add pid q => exact stockTotal_add_item s pid q x
  | remove pid => exact stockTotal_remove_item s pid x hnd
  | update pid q => exact stockTotal_update_quantity s pid q x hnd

theorem keysNodup_applyOp (op : Op) (s : SysState)
    (hnd : keysNodup s.items) : keysNodup ((applyOp op s).2).items := by
  cases op with
  | add pid q => exact keysNodup_items_add_item s pid q hnd
  | remove pid => exact keysNodup_items_remove_item s pid hnd
  | update pid q => exact keysNodup_items_update_quantity s pid q hnd

theorem stockTotal_runOps (ops : List Op) (s : SysState) (x : String)
    (hnd : keysNodup s.items) :
    stockTotal (runOps ops s) x = stockTotal s x := by
  induction ops generalizing s with
  | nil => rfl
  | cons op rest ih =>
    have h₁ := stockTotal_applyOp op s x hnd
    have h₂ := keysNodup_applyOp op s hnd
    simpa [runOps, List.foldl_cons] using (ih _ h₂).trans h₁

/-! ## Claim C1: conservation -/

/-- Claim C1: for every product and any sequence of successful
Add/Remove/UpdateQuantity operations on the in-memory state, the sum of
the product's available quantity in the catalog and its reserved
quantity in the cart (zero when no cart line exists) is unchanged by
every operation and equals its value at catalog load time. -/
theorem conservation_of_stock (ops : List Op) (s : SysState) (pid : String)
    (hnd : keysNodup s.items) (_hsucc : opsSucceed ops s = true) :
    stockTotal (runOps ops s) pid = stockTotal s pid :=
  stockTotal_runOps ops s pid hnd

/-- Witness for C1 on the seeded sample state: add 10 units of
`"001A"`, update the line to 5, then remove it — each succeeds and the
sum is conserved. -/
theorem conservation_of_stock_witness :
    keysNodup demoState.items ∧
    opsSucceed [.add "001A" 10, .update "001A" 5, .remove "001A"]
      demoState = true ∧
    stockTotal (runOps [.add "001A" 10, .update "001A" 5, .remove "001A"]
      demoState) "001A" = stockTotal demoState "001A" :=
  ⟨by decide, by decide,
    conservation_of_stock [.add "001A" 10, .update "001A" 5, .remove "001A"]
      demoState "001A" (by decide) (by decide)⟩

/-! ## Claim C2: add beyond stock is an atomic failure -/

/-- Claim C2: for every state and every product present in the catalog,
`add_item` with a quantity greater than the available quantity raises
the inventory-shortfall error — a distinct named error carrying the
product name and the currently available amount, not a boolean
failure — and leaves the entire state (catalog, cart lines, files, log)
unchanged. -/
theorem add_beyond_stock_raises_and_preserves (s : SysState) (pid : String)
    (q : Int) (p : Product) (hcat : dlookup s.catalog pid = some p)
    (hav : (p.quantity_available : Int) < q) :
    add_item s pid q =
      (.exc (.inventoryError p.name p.quantity_available), s) :=
  add_item_shortfall s pid q p hcat hav

/-- Witness for C2: requesting 101 units of `"001A"` (100 available)
raises the shortfall error and returns the state untouched. -/
theorem add_beyond_stock_raises_and_preserves_witness :
    dlookup demoState.catalog "001A" = some tataSalt ∧
    (tataSalt.quantity_available : Int) < 101 ∧
    add_item demoState "001A" 101 =
      (.exc (.inventoryError tataSalt.name tataSalt.quantity_available),
        demoState) :=
  ⟨by decide, by decide,
    add_beyond_stock_raises_and_preserves demoState "001A" 101 tataSalt
      (by decide) (by decide)⟩

/-! ## Claim C5: update no-op short-circuit -/

/-- Claim C5: updating a cart line to its current reserved quantity
returns success while performing no persistence and appending no log
record, leaving the catalog, the cart state and all files unchanged
(the successor state is exactly the original state, saves counter
included). -/
theorem update_quantity_noop_frame (s : SysState) (pid : String) (c : Nat)
    (p : Product) (hit : dlookup s.items pid = some c)
    (hcat : dlookup s.catalog pid = some p) :
    update_quantity s pid (c : Int) = (.ok true, s) :=
  update_quantity_noop s pid c p hit hcat

/-- Witness for C5: updating the 5-unit line of `"001A"` to 5 changes
nothing and succeeds. -/
theorem update_quantity_noop_frame_witness :
    dlookup demoCartState.items "001A" = some 5 ∧
    dlookup demoCartState.catalog "001A" =
      some { tataSalt with quantity_available := 95 } ∧
    update_quantity demoCartState "001A" 5 = (.ok true, demoCartState) :=
  ⟨by decide, by decide,
    update_quantity_noop_frame demoCartState "001A" 5
      { tataSalt with quantity_available := 95 } (by decide) (by decide)⟩

/-! ## Claim C6: update to zero removes the line, restoring stock -/

/-- Claim C6: for a cart line of reserved quantity `c > 0`,
`update_quantity(pid, 0)` succeeds, removes the product from the cart,
keeps it in the catalog with its available quantity increased by `c`
(fully restored), and logs an `"UPDATE"` record (not a `"REMOVE"`
record). -/
theorem update_to_zero_removes_line (s : SysState) (pid : String) (c : Nat)
    (p : Product) (hit : dlookup s.items pid = some c) (hc : 0 < c)
    (hcat : dlookup s.catalog pid = some p) (hnd : keysNodup s.items) :
    (update_quantity s pid 0).1 = .ok true ∧
    dlookup ((update_quantity s pid 0).2).items pid = none ∧
    dlookup ((update_quantity s pid 0).2).catalog pid =
      some { p with quantity_available := p.quantity_available + c } ∧
    ((update_quantity s pid 0).2).log = s.log ++
      [⟨"UPDATE", pid, p.name, 0, "Previous quantity: " ++ toString c⟩] := by
  have h := update_quantity_success s pid 0 c p hit hcat (by omega)
    (by omega) (by omega)
  rw [h]
  have hqa : ((p.quantity_available : Int) + (c : Int) - 0).toNat =
      p.quantity_available + c := by omega
  have htn : (0 : Int).toNat = 0 := rfl
  refine ⟨rfl, ?_, ?_, ?_⟩
  · simp only [logTransaction, saveCartState, saveCatalog, if_pos rfl, htn]
    exact dlookup_dremove_self _ _ (keysNodup_dinsert _ _ _ hnd)
  · simp only [logTransaction, saveCartState, saveCatalog]
    rw [dlookup_dinsert_self, hqa]
  · simp [logTransaction, saveCartState, saveCatalog]

/-- Witness for C6: updating the 5-unit line of `"001A"` to zero
removes the line, restores the stock to 100, and logs an UPDATE row. -/
theorem update_to_zero_removes_line_witness :
    dlookup demoCartState.items "001A" = some 5 ∧
    dlookup demoCartState.catalog "001A" =
      some { tataSalt with quantity_available := 95 } ∧
    ((update_quantity demoCartState "001A" 0).1 = .ok true ∧
     dlookup ((update_quantity demoCartState "001A" 0).2).items "001A" =
       none ∧
     dlookup ((update_quantity demoCartState "001A" 0).2).catalog "001A" =
       some { { tataSalt with quantity_available := 95 } with
         quantity_available :=
           { tataSalt with quantity_available := 95 }.quantity_available
             + 5 } ∧
     ((update_quantity demoCartState "001A" 0).2).log =
       demoCartState.log ++
         [⟨"UPDATE", "001A",
           { tataSalt with quantity_available := 95 }.name, 0,
           "Previous quantity: " ++ toString 5⟩]) :=
  ⟨by decide, by decide,
    update_to_zero_removes_line demoCartState "001A" 5
      { tataSalt with quantity_available := 95 } (by decide) (by decide)
      (by decide) (by decide)⟩

/-! ## Claim C7: add success postcondition -/

/-- Claim C7: for a product in the catalog with available quantity `a`
and a request `0 < q ≤ a`, `add_item` returns success, decreases the
available quantity by exactly `q`, and extends an existing cart line by
`q` or creates a new line with quantity `q`; an unknown product id or a
non-positive quantity gives a plain boolean failure (`False`, no
exception) with the whole state unchanged. -/
theorem add_item_postcondition (s : SysState) (pid : String) (q : Int) :
    (dlookup s.catalog pid = none → add_item s pid q = (.ok false, s)) ∧
    (∀ p, dlookup s.catalog pid = some p → q ≤ 0 →
      add_item s pid q = (.ok false, s)) ∧
    (∀ p, dlookup s.catalog pid = some p → 0 < q →
      q ≤ (p.quantity_available : Int) →
      (add_item s pid q).1 = .ok true ∧
      dlookup ((add_item s pid q).2).catalog pid =
        some { p with
          quantity_available := p.quantity_available - q.toNat } ∧
      (∀ c, dlookup s.items pid = some c →
        dlookup ((add_item s pid q).2).items pid = some (c + q.toNat)) ∧
      (dlookup s.items pid = none →
        dlookup ((add_item s pid q).2).items pid = some q.toNat)) := by
  refine ⟨fun hcat => add_item_unknown s pid q hcat,
    fun p hcat hq => add_item_nonpos s pid q p hcat hq,
    fun p hcat hq hav => ?_⟩
  rcases hit : dlookup s.items pid with _ | c
  · rw [add_item_success_new s pid q p hcat hq hav hit]
    refine ⟨rfl, ?_, ?_, fun _ => ?_⟩
    · simp only [logTransaction, saveCartState, saveCatalog]
      exact dlookup_dinsert_self _ _ _
    · intro c hc
      exact absurd hc (by simp)
    · simp only [logTransaction, saveCartState, saveCatalog]
      exact dlookup_dinsert_self _ _ _
  · rw [add_item_success_existing s pid q p c hcat hq hav hit]
    refine ⟨rfl, ?_, ?_, fun hnone => ?_⟩
    · simp only [logTransaction, saveCartState, saveCatalog]
      exact dlookup_dinsert_self _ _ _
    · intro c' hc'
      obtain rfl : c = c' := by simpa using hc'
      simp only [logTransaction, saveCartState, saveCatalog]
      rw [dlookup_dinsert_self]
      congr 1
      omega
    · exact absurd hnone (by simp)

/-- Witness for C7 on the seeded sample state: all three branches at
concrete inputs (unknown id, non-positive quantity, successful add of
10 units of `"001A"` creating a new line and leaving 90 available). -/
theorem add_item_postcondition_witness :
    add_item demoState "999Z" 3 = (.ok false, demoState) ∧
    add_item demoState "001A" 0 = (.ok false, demoState) ∧
    (add_item demoState "001A" 10).1 = .ok true ∧
    dlookup ((add_item demoState "001A" 10).2).catalog "001A" =
      some { tataSalt with
        quantity_available := tataSalt.quantity_available - (10 : Int).toNat } ∧
    dlookup ((add_item demoState "001A" 10).2).items "001A" =
      some ((10 : Int).toNat) :=
  ⟨(add_item_postcondition demoState "999Z" 3).1 (by decide),
    (add_item_postcondition demoState "001A" 0).2.1 tataSalt (by decide)
      (by decide),
    ((add_item_postcondition demoState "001A" 10).2.2 tataSalt (by decide)
      (by decide) (by decide)).1,
    ((add_item_postcondition demoState "001A" 10).2.2 tataSalt (by decide)
      (by decide) (by decide)).2.1,
    ((add_item_postcondition demoState "001A" 10).2.2 tataSalt (by decide)
      (by decide) (by decide)).2.2.2 (by decide)⟩

/-! ## Claim C8: remove postcondition (corrected) -/

/-- Counterexample to C8 as stated: `zeroLineState` is reached by
loading a cart-state file holding `{"product_id": "001A", "quantity": 0}`
against a catalog containing `"001A"`, so a cart line for `"001A"`
exists (with reserved quantity 0) — yet `remove_item` does not return
success: `increase_quantity(0)` raises `ValueError` and the state is
unchanged. -/
theorem remove_item_counterexample :
    dlookup zeroLineState.items "001A" = some 0 ∧
    remove_item zeroLineState "001A" =
      (.exc (.valueError "Amount must be positive"), zeroLineState) := by
  decide

/-- Claim C8 (amended): `remove_item` returns `False` and changes
nothing when no cart line exists; when a line with reserved quantity
`c > 0` exists, it returns success, increases the catalog's available
quantity by exactly `c`, deletes the line, and logs a `"REMOVE"` record
with quantity `c`; a line with reserved quantity 0 (creatable only by
cart-state loading) instead makes `remove_item` raise `ValueError`,
state unchanged. -/
theorem remove_item_postcondition (s : SysState) (pid : String) :
    (dlookup s.items pid = none → remove_item s pid = (.ok false, s)) ∧
    (∀ p, dlookup s.items pid = some 0 → dlookup s.catalog pid = some p →
      remove_item s pid =
        (.exc (.valueError "Amount must be positive"), s)) ∧
    (∀ c p, dlookup s.items pid = some c → 0 < c →
      dlookup s.catalog pid = some p →
      remove_item s pid = (.ok true,
        logTransaction (saveCartState (saveCatalog
          { s with
              catalog := dinsert s.catalog pid
                { p with quantity_available := p.quantity_available + c },
              items := dremove s.items pid }))
          "REMOVE" pid p.name (c : Int) "")) :=
  ⟨fun hit => remove_item_no_line s pid hit,
    fun p h0 hcat => remove_item_zero_line s pid p h0 hcat,
    fun c p hit hc hcat => remove_item_success s pid p c hit hc hcat⟩

/-- Witness for the amended C8: removal failure on an empty cart,
ValueError on the zero-quantity line, and a successful removal of the
5-unit line of `"001A"` restoring stock to 100. -/
theorem remove_item_postcondition_witness :
    remove_item demoState "001A" = (.ok false, demoState) ∧
    remove_item zeroLineState "002A" = (.ok false, zeroLineState) ∧
    remove_item demoCartState "001A" = (.ok true,
      logTransaction (saveCartState (saveCatalog
        { demoCartState with
            catalog := dinsert demoCartState.catalog "001A"
              { { tataSalt with quantity_available := 95 } with
                  quantity_available :=
                    { tataSalt with
                        quantity_available := 95 }.quantity_available + 5 },
            items := dremove demoCartState.items "001A" }))
        "REMOVE" "001A" { tataSalt with quantity_available := 95 }.name
        ((5 : Nat) : Int) "") :=
  ⟨(remove_item_postcondition demoState "001A").1 (by decide),
    (remove_item_postcondition zeroLineState "002A").1 (by decide),
    (remove_item_postcondition demoCartState "001A").2.2 5
      { tataSalt with quantity_available := 95 } (by decide) (by decide)
      (by decide)⟩

/-! ## Claim C3: behavioral equivalence of the two files (corrected) -/

theorem add_item_gui_eq (s : SysState) (pid : String) (q : Int) :
    add_item_gui s pid q = add_item s pid q := by
  rcases hcat : dlookup s.catalog pid with _ | p
  · simp [add_item, add_item_gui, hcat]
  · by_cases hq : q ≤ 0
    · simp [add_item, add_item_gui, hcat, if_pos hq]
    · by_cases hav : (p.quantity_available : Int) < q
      · simp [add_item, add_item_gui, hcat, if_neg hq, if_pos hav]
      · have hdec : p.decrease_quantity q = (true,
            { p with quantity_available := p.quantity_available - q.toNat }) := by
          simp only [Product.decrease_quantity, if_neg hq, if_neg hav]
        simp [add_item, add_item_gui, hcat, if_neg hq, if_neg hav, hdec]

theorem remove_item_gui_eq (s : SysState) (pid : String) :
    remove_item_gui s pid = remove_item s pid := rfl

theorem get_total_gui_eq (s : SysState) : get_total_gui s = get_total s := rfl

/-- Counterexample to C3 as stated: the `ShoppingCart` class of
`shoppingcart.py` defines neither `update_quantity` nor `get_product`,
so those API calls raise `AttributeError` there while
`Shoping_cart_System.py` performs them — the two classes are not
behaviorally identical over the whole collaborator-facing API. -/
theorem api_equivalence_counterexample :
    apiGui (.updateQuantity "001A" 3) demoCartState ≠
      apiSys (.updateQuantity "001A" 3) demoCartState ∧
    apiGui (.getProduct "001A") demoCartState ≠
      apiSys (.getProduct "001A") demoCartState := by
  decide

/-- Claim C3 (amended): on the operations both classes define —
`addItem`, `removeItem`, `getTotal` — the two `ShoppingCart` classes
produce the same result and the same successor state for every input
and state; `updateQuantity` and `getProduct` exist only in
`Shoping_cart_System.py`, and calling them on `shoppingcart.py`'s class
raises `AttributeError`, leaving the state unchanged. -/
theorem api_shared_operations_agree (s : SysState) (pid : String)
    (q : Int) :
    apiGui (.addItem pid q) s = apiSys (.addItem pid q) s ∧
    apiGui (.removeItem pid) s = apiSys (.removeItem pid) s ∧
    apiGui .getTotal s = apiSys .getTotal s ∧
    apiGui (.updateQuantity pid q) s = (.exc .attributeError, s) ∧
    apiGui (.getProduct pid) s = (.exc .attributeError, s) := by
  refine ⟨?_, ?_, rfl, rfl, rfl⟩
  · simp only [apiGui, apiSys, add_item_gui_eq]
  · simp only [apiGui, apiSys, remove_item_gui_eq]

/-! ## Claim C4: per-record fault tolerance of catalog load (corrected) -/

theorem dlookup_dinsert_isSome {α : Type} (l : List (String × α))
    (k k' : String) (v : α) (h : (dlookup l k).isSome) :
    (dlookup (dinsert l k' v) k).isSome := by
  by_cases hk : k = k'
  · subst hk
    rw [dlookup_dinsert_self]
    rfl
  · rw [dlookup_dinsert_ne _ _ _ _ hk]
    exact h

theorem loadCatalogGui_mono (recs : List ProdRecord)
    (acc : List (String × Product)) (k : String)
    (h : (dlookup acc k).isSome) :
    (dlookup (loadCatalogGui acc recs).1 k).isSome := by
  induction recs generalizing acc with
  | nil => exact h
  | cons r rest ih =>
    cases hr : Product.from_dict r with
    | none => simpa [loadCatalogGui, hr] using ih acc h
    | some p =>
      simpa [loadCatalogGui, hr] using
        ih (dinsert acc p.product_id p) (dlookup_dinsert_isSome _ _ _ _ h)

theorem loadCatalogGui_warning_count (recs : List ProdRecord)
    (acc : List (String × Product)) :
    (loadCatalogGui acc recs).2 =
      recs.countP (fun r => (Product.from_dict r).isNone) := by
  induction recs generalizing acc with
  | nil => simp [loadCatalogGui]
  | cons r rest ih =>
    cases hr : Product.from_dict r with
    | none => simp [loadCatalogGui, hr, List.countP_cons, ih]
    | some p => simp [loadCatalogGui, hr, List.countP_cons, ih]

theorem loadCatalogGui_keeps (recs : List ProdRecord)
    (acc : List (String × Product)) (r : ProdRecord) (p : Product)
    (hr : r ∈ recs) (hp : Product.from_dict r = some p) :
    (dlookup (loadCatalogGui acc recs).1 p.product_id).isSome := by
  induction recs generalizing acc with
  | nil => cases hr
  | cons r' rest ih =>
    rcases List.mem_cons.mp hr with rfl | hr'
    · simp only [loadCatalogGui, hp]
      refine loadCatalogGui_mono rest _ _ ?_
      rw [dlookup_dinsert_self]
      rfl
    · cases hr'' : Product.from_dict r' with
      | none => simpa [loadCatalogGui, hr''] using ih _ hr'
      | some p' => simpa [loadCatalogGui, hr''] using ih _ hr'

/-- Counterexample to C4 as stated: `_load_catalog` of
`Shoping_cart_System.py` has no per-record exception handler (its
`except` clause only covers `FileNotFoundError` and
`json.JSONDecodeError`), so one record with a missing required field
aborts the whole load with `KeyError` — the well-formed record after it
is never loaded. -/
theorem loadCatalogSys_counterexample :
    Product.from_dict badRecord = none ∧
    (Product.from_dict goodRecord).isSome ∧
    loadCatalogSys [] [badRecord, goodRecord] = .error .keyError :=
  ⟨rfl, rfl, rfl⟩

/-- Claim C4 (amended): per-record fault tolerance holds for
`_load_catalog` of `shoppingcart.py` — a record that fails to parse is
skipped (counted as a printed warning) and loading continues, so every
well-formed record's product id is present in the loaded catalog and
the load never fails; in `Shoping_cart_System.py` the same bad record
instead aborts the whole load with an uncaught `KeyError`. -/
theorem loadCatalogGui_fault_tolerant (recs : List ProdRecord)
    (r : ProdRecord) (p : Product) (hr : r ∈ recs)
    (hp : Product.from_dict r = some p) :
    (dlookup (loadCatalogGui [] recs).1 p.product_id).isSome ∧
    (loadCatalogGui [] recs).2 =
      recs.countP (fun x => (Product.from_dict x).isNone) :=
  ⟨loadCatalogGui_keeps recs [] r p hr hp,
    loadCatalogGui_warning_count recs []⟩

/-- Witness for the amended C4: loading `[badRecord, goodRecord]` with
the GUI file's loader keeps `"001A"` and counts one warning. -/
theorem loadCatalogGui_fault_tolerant_witness :
    goodRecord ∈ [badRecord, goodRecord] ∧
    Product.from_dict goodRecord = some tataSalt ∧
    ((dlookup (loadCatalogGui [] [badRecord, goodRecord]).1
        tataSalt.product_id).isSome ∧
     (loadCatalogGui [] [badRecord, goodRecord]).2 =
       [badRecord, goodRecord].countP
         (fun x => (Product.from_dict x).isNone)) :=
  ⟨by decide, by decide,
    loadCatalogGui_fault_tolerant [badRecord, goodRecord] goodRecord
      tataSalt (by decide) (by decide)⟩

/-! ## Claim C9: serialization round-trip -/

theorem from_dict_to_dict (p : Product) :
    Product.from_dict p.to_dict = some p := by
  rcases p with ⟨i, n, pr, qa, v⟩
  have hqa : (max 0 (qa : Int)).toNat = qa := by omega
  cases v with
  | generic =>
    simp [Product.to_dict, Product.from_dict, Product.init, hqa]
  | physical w =>
    simp [Product.to_dict, Product.from_dict, PhysicalProduct.init,
      Product.init, hqa]
  | digital l =>
    simp [Product.to_dict, Product.from_dict, DigitalProduct.init,
      Product.init, hqa]

theorem loadCatalogSys_save (catalog : List (String × Product))
    (acc : List (String × Product)) (hnd : keysNodup catalog)
    (hdisj : ∀ e ∈ catalog, e.1 ∉ acc.map Prod.fst)
    (hids : ∀ e ∈ catalog, e.2.product_id = e.1) :
    loadCatalogSys acc (saveCatalogData catalog) = .ok (acc ++ catalog) := by
  induction catalog generalizing acc with
  | nil => simp [saveCatalogData, loadCatalogSys]
  | cons e rest ih =>
    obtain ⟨k, p⟩ := e
    have hid : p.product_id = k := hids (k, p) (List.mem_cons_self _ _)
    simp only [keysNodup, List.map_cons, List.nodup_cons] at hnd
    simp only [saveCatalogData, List.map_cons, loadCatalogSys,
      from_dict_to_dict, hid]
    rw [dinsert_eq_append acc k p (hdisj (k, p) (List.mem_cons_self _ _))]
    have hrest := ih (acc ++ [(k, p)]) hnd.2
      (fun e he => by
        simp only [List.map_append, List.mem_append, List.map_cons,
          List.map_nil, List.mem_singleton, not_or]
        refine ⟨hdisj e (List.mem_cons_of_mem _ he), fun hek => ?_⟩
        exact hnd.1 (hek ▸ List.mem_map_of_mem Prod.fst he))
      (fun e he => hids e (List.mem_cons_of_mem _ he))
    simpa [saveCatalogData, List.append_assoc] using hrest

theorem loadCartState_save (catalog : List (String × Product))
    (items : List (String × Nat)) (acc : List (String × Nat))
    (hnd : keysNodup items)
    (hdisj : ∀ e ∈ items, e.1 ∉ acc.map Prod.fst)
    (hin : ∀ e ∈ items, (dlookup catalog e.1).isSome) :
    loadCartState catalog acc (saveCartData items) = acc ++ items := by
  induction items generalizing acc with
  | nil => simp [saveCartData, loadCartState]
  | cons e rest ih =>
    obtain ⟨k, c⟩ := e
    obtain ⟨p, hp⟩ := Option.isSome_iff_exists.mp
      (hin (k, c) (List.mem_cons_self _ _))
    simp only [keysNodup, List.map_cons, List.nodup_cons] at hnd
    have hq : (CartItem.init p ((c : Nat) : Int)).quantity = c := by
      simp only [CartItem.init]
      omega
    simp only [saveCartData, List.map_cons, loadCartState, hp, hq]
    rw [dinsert_eq_append acc k c (hdisj (k, c) (List.mem_cons_self _ _))]
    have hrest := ih (acc ++ [(k, c)]) hnd.2
      (fun e he => by
        simp only [List.map_append, List.mem_append, List.map_cons,
          List.map_nil, List.mem_singleton, not_or]
        refine ⟨hdisj e (List.mem_cons_of_mem _ he), fun hek => ?_⟩
        exact hnd.1 (hek ▸ List.mem_map_of_mem Prod.fst he))
      (fun e he => hin e (List.mem_cons_of_mem _ he))
    simpa [saveCartData, List.append_assoc] using hrest

/-- Claim C9: serialization is lossless for the defined schema — every
product (generic, physical or digital) survives `to_dict`/`from_dict`
unchanged; saving and reloading a whole catalog reproduces it exactly;
and saving the cart lines and re-pairing them against that catalog
reproduces the same product ids and quantities (with each line's price
read from the reproduced catalog). -/
theorem serialization_round_trip (p0 : Product)
    (catalog : List (String × Product)) (items : List (String × Nat))
    (hndc : keysNodup catalog)
    (hids : ∀ e ∈ catalog, e.2.product_id = e.1)
    (hndi : keysNodup items)
    (hin : ∀ e ∈ items, (dlookup catalog e.1).isSome) :
    Product.from_dict p0.to_dict = some p0 ∧
    loadCatalogSys [] (saveCatalogData catalog) = .ok catalog ∧
    loadCartState catalog [] (saveCartData items) = items :=
  ⟨from_dict_to_dict p0,
    by simpa using loadCatalogSys_save catalog [] hndc (by simp) hids,
    by simpa using loadCartState_save catalog items [] hndi (by simp) hin⟩

/-- Witness for C9 on the demo cart state (one physical product held in
the cart, one spare catalog entry, a digital product round-tripped
directly). -/
theorem serialization_round_trip_witness :
    Product.from_dict (DigitalProduct.init "006A" "Bollywood Movie - Sholay"
      99 1000 "x").to_dict =
      some (DigitalProduct.init "006A" "Bollywood Movie - Sholay"
        99 1000 "x") ∧
    loadCatalogSys [] (saveCatalogData demoCartState.catalog) =
      .ok demoCartState.catalog ∧
    loadCartState demoCartState.catalog []
      (saveCartData demoCartState.items) = demoCartState.items :=
  serialization_round_trip
    (DigitalProduct.init "006A" "Bollywood Movie - Sholay" 99 1000 "x")
    demoCartState.catalog demoCartState.items (by decide) (by decide)
    (by decide) (by decide)

/-! ## Claim C10: constructors clamp; zero-quantity lines load -/

theorem mem_dremove_dinsert {α : Type} (l : List (String × α)) (k : String)
    (v : α) (x : String × α) (h : x ∈ dremove (dinsert l k v) k) :
    x ∈ l := by
  induction l with
  | nil => simp [dinsert, dremove] at h
  | cons e rest ih =>
    obtain ⟨k₀, v₀⟩ := e
    by_cases h₀ : k₀ = k
    · subst h₀
      simp only [dinsert, if_true, eq_self_iff_true, dremove] at h
      exact List.mem_cons_of_mem _ h
    · simp only [dinsert, if_neg h₀, dremove, List.mem_cons] at h
      rcases h with h | h
      · exact h ▸ List.mem_cons_self _ _
      · exact List.mem_cons_of_mem _ (ih h)

theorem itemsPos_applyOp (op : Op) (s : SysState)
    (hpos : itemsPos s.items) : itemsPos ((applyOp op s).2).items := by
  cases op with
  | add pid q =>
    show itemsPos ((add_item s pid q).2).items
    rcases hcat : dlookup s.catalog pid with _ | p
    · rw [add_item_unknown s pid q hcat]; exact hpos
    · by_cases hq : q ≤ 0
      · rw [add_item_nonpos s pid q p hcat hq]; exact hpos
      · by_cases hav : (p.quantity_available : Int) < q
        · rw [add_item_shortfall s pid q p hcat hav]; exact hpos
        · rcases hit : dlookup s.items pid with _ | c
          · rw [add_item_success_new s pid q p hcat (by omega) (by omega) hit]
            simp only [logTransaction, saveCartState, saveCatalog]
            intro e he
            rcases mem_dinsert _ _ _ e he with rfl | he'
            · show 0 < q.toNat
              omega
            · exact hpos e he'
          · rw [add_item_success_existing s pid q p c hcat (by omega)
              (by omega) hit]
            simp only [logTransaction, saveCartState, saveCatalog]
            intro e he
            rcases mem_dinsert _ _ _ e he with rfl | he'
            · show 0 < ((c : Int) + q).toNat
              omega
            · exact hpos e he'
  | remove pid =>
    show itemsPos ((remove_item s pid).2).items
    rcases hit : dlookup s.items pid with _ | c
    · rw [remove_item_no_line s pid hit]; exact hpos
    · rcases hcat : dlookup s.catalog pid with _ | p
      · rw [remove_item_no_catalog s pid c hit hcat]; exact hpos
      · rcases Nat.eq_zero_or_pos c with hc | hc
        · subst hc
          rw [remove_item_zero_line s pid p hit hcat]; exact hpos
        · rw [remove_item_success s pid p c hit hc hcat]
          simp only [logTransaction, saveCartState, saveCatalog]
          exact fun e he => hpos e (mem_dremove _ _ e he)
  | update pid q =>
    show itemsPos ((update_quantity s pid q).2).items
    rcases hit : dlookup s.items pid with _ | c
    · rw [update_quantity_no_line s pid q hit]; exact hpos
    · rcases hcat : dlookup s.catalog pid with _ | p
      · rw [update_quantity_no_catalog s pid q c hit hcat]; exact hpos
      · by_cases hq : q < 0
        · rw [update_quantity_neg s pid q c p hit hcat hq]; exact hpos
        · by_cases hne : q = (c : Int)
          · rw [hne, update_quantity_noop s pid c p hit hcat]; exact hpos
          · by_cases hav : (p.quantity_available : Int) < q - (c : Int)
            · rw [update_quantity_shortfall s pid q c p hit hcat hav]
              exact hpos
            · rw [update_quantity_success s pid q c p hit hcat (by omega)
                hne (by omega)]
              by_cases hz : q = 0
              · rw [if_pos hz]
                simp only [logTransaction, saveCartState, saveCatalog]
                exact fun e he => hpos e (mem_dremove_dinsert _ _ _ e he)
              · rw [if_neg hz]
                simp only [logTransaction, saveCartState, saveCatalog]
                intro e he
                rcases mem_dinsert _ _ _ e he with rfl | he'
                · show 0 < q.toNat
                  omega
                · exact hpos e he'

/-- Claim C10 (implicit): `Product.__init__` clamps a negative
available quantity to 0 and `CartItem.__init__` clamps a negative
reserved quantity to 0 (no error raised); consequently loading a
cart-state file pair with quantity 0 or negative yields an in-memory
cart line with reserved quantity 0 — even though every ledger operation
keeps all cart-line quantities strictly positive. -/
theorem constructors_clamp_zero_line_loads (product_id nm : String)
    (price : ℚ) (q : Int) (p : Product)
    (catalog : List (String × Product)) (pid : String) (op : Op)
    (s : SysState) :
    (q < 0 → (Product.init product_id nm price q).quantity_available = 0) ∧
    (q < 0 → (CartItem.init p q).quantity = 0) ∧
    (∀ p', dlookup catalog pid = some p' → q ≤ 0 →
      dlookup (loadCartState catalog [] [⟨pid, q⟩]) pid = some 0) ∧
    (itemsPos s.items → itemsPos ((applyOp op s).2).items) := by
  refine ⟨fun hq => ?_, fun hq => ?_, fun p' hp' hq => ?_, fun hpos =>
    itemsPos_applyOp op s hpos⟩
  · simp only [Product.init]
    omega
  · simp only [CartItem.init]
    omega
  · have hz : (max 0 q).toNat = 0 := by omega
    simp [loadCartState, hp', CartItem.init, hz, dinsert, dlookup]

/-- Witness for C10: a product constructed with quantity −5 has 0
available, a cart line constructed with quantity −3 holds 0, loading a
`{"001A", 0}` cart pair gives a zero line, and a successful add keeps
cart lines positive. -/
theorem constructors_clamp_zero_line_loads_witness :
    (Product.init "010A" "Ghee 1kg" 600 (-5)).quantity_available = 0 ∧
    (CartItem.init tataSalt (-3)).quantity = 0 ∧
    dlookup (loadCartState demoState.catalog [] [⟨"001A", 0⟩]) "001A" =
      some 0 ∧
    itemsPos ((applyOp (.add "001A" 10) demoState).2).items :=
  ⟨(constructors_clamp_zero_line_loads "010A" "Ghee 1kg" 600 (-5) tataSalt
      demoState.catalog "001A" (.add "001A" 10) demoState).1 (by decide),
    (constructors_clamp_zero_line_loads "010A" "Ghee 1kg" 600 (-3) tataSalt
      demoState.catalog "001A" (.add "001A" 10) demoState).2.1 (by decide),
    (constructors_clamp_zero_line_loads "010A" "Ghee 1kg" 600 0 tataSalt
      demoState.catalog "001A" (.add "001A" 10) demoState).2.2.1 tataSalt
      (by decide) (by decide),
    (constructors_clamp_zero_line_loads "010A" "Ghee 1kg" 600 0 tataSalt
      demoState.catalog "001A" (.add "001A" 10) demoState).2.2.2
      (by decide)⟩
